import Mathlib

/-!
Shallow embedding of the generation-job lifecycle core of the
TelegramSunoBot repository: the Postgres tables and the database helpers of
`src/app/database.py`, the webhook completion handler of
`src/app/handlers/callback.py`, the generation flow of
`src/app/handlers/generation.py`, the stuck-job watchdog and the T-Bank
notification handler of `src/main.py`.  Rows are Lean structures, the
database is a record of row lists, each async handler becomes a pure
function from a database state (plus the parsed request) to the new state
together with the emitted background events and the HTTP response.
-/

namespace TelegramSunoBot

/-- A row of the `users` table (schema in `src/app/database.py`).
`credits` is the paid pool, `free_generations_left` the free pool. -/
structure User where
  telegram_id : Nat
  credits : Int
  free_generations_left : Int
  content_violations : Int
  is_blocked : Bool
  created_at : Nat
  last_generation_at : Option Nat
deriving Repr, DecidableEq

/-- A row of the `generations` table.  Timestamps are seconds as `Nat`. -/
structure Gen where
  id : Nat
  user_id : Nat
  suno_song_ids : List String
  prompt : String
  style : String
  voice_gender : Option String
  mode : String
  status : String
  audio_urls : List String
  tg_file_ids : List String
  credits_spent : Int
  error_message : Option String
  callback_chat_id : Option Int
  callback_message_id : Option Int
  created_at : Nat
  completed_at : Option Nat
  unlocked : Bool
deriving Repr, DecidableEq

/-- One row of the append-only balance-transaction log written through
`log_balance_transaction`. -/
structure LedgerEntry where
  user_id : Nat
  delta : Int
  source : String
  description : String
deriving Repr, DecidableEq

/-- A row of the `payments` table. -/
structure Payment where
  id : Nat
  user_id : Nat
  order_id : Option String
  payment_type : String
  status : String
  stars_amount : Int
  amount_rub : Int
  credits_purchased : Int
  tbank_payment_id : Option String
deriving Repr, DecidableEq

/-- The database state: the four tables plus the SERIAL counters. -/
structure DB where
  users : List User
  gens : List Gen
  ledger : List LedgerEntry
  payments : List Payment
  next_gen_id : Nat
  next_payment_id : Nat
deriving Repr, DecidableEq

/-- `get_user`: SELECT * FROM users WHERE telegram_id = $1. -/
def get_user (db : DB) (uid : Nat) : Option User :=
  db.users.find? (fun u => u.telegram_id == uid)

/-- `update_user_credits`: UPDATE users SET credits = credits + delta
WHERE telegram_id = uid. -/
def update_user_credits (db : DB) (uid : Nat) (delta : Int) : DB :=
  { db with users := db.users.map (fun u =>
      if u.telegram_id = uid then { u with credits := u.credits + delta } else u) }

/-- `use_free_generation`: UPDATE users SET free_generations_left =
free_generations_left - 1 WHERE telegram_id = uid AND
free_generations_left > 0; the Bool is whether a row was affected. -/
def use_free_generation (db : DB) (uid : Nat) : DB × Bool :=
  ({ db with users := db.users.map (fun u =>
      if u.telegram_id = uid ∧ u.free_generations_left > 0 then
        { u with free_generations_left := u.free_generations_left - 1 } else u) },
   db.users.any (fun u => u.telegram_id == uid && decide (u.free_generations_left > 0)))

/-- `update_last_generation`: UPDATE users SET last_generation_at = NOW(). -/
def update_last_generation (db : DB) (uid : Nat) (now : Nat) : DB :=
  { db with users := db.users.map (fun u =>
      if u.telegram_id = uid then { u with last_generation_at := some now } else u) }

/-- `increment_content_violations`: UPDATE users SET content_violations =
content_violations + 1, is_blocked = CASE WHEN content_violations + 1 >= 3
THEN TRUE ELSE is_blocked END WHERE telegram_id = uid RETURNING the new
count (none when no row matched). -/
def increment_content_violations (db : DB) (uid : Nat) : DB × Option Int :=
  ({ db with users := db.users.map (fun u =>
      if u.telegram_id = uid then
        { u with content_violations := u.content_violations + 1,
                 is_blocked := if u.content_violations + 1 ≥ 3 then true else u.is_blocked }
      else u) },
   (get_user db uid).map (fun u => u.content_violations + 1))

/-- Modelled from the spec: `log_balance_transaction` is called from the
handlers and `src/app/admin.py` but its definition is not among the source
files under src/ (the shipped `src/app/database.py` predates it); the
spec's Credit Ledger (§4.2) says a debit or credit "appends a ledger
entry" with owner, signed delta, source tag and description to an
append-only transaction log. -/
def log_balance_transaction (db : DB) (uid : Nat) (delta : Int)
    (source description : String) : DB :=
  { db with ledger := db.ledger ++ [⟨uid, delta, source, description⟩] }

/-- Modelled from the spec: `unlock_generation` is called from the
handlers but absent from the shipped `src/app/database.py`; per the
delivery design (§4.6, full fidelity for the paid tier) it marks the
generation's full version as available, modelled as a boolean flag on the
row. -/
def unlock_generation (db : DB) (gid : Nat) : DB :=
  { db with gens := db.gens.map (fun g =>
      if g.id = gid then { g with unlocked := true } else g) }

/-- The optional keyword fields accepted by `update_generation_status`.
The callback handler also passes a `song_titles` keyword, which the
function body never reads, so it has no field here. -/
structure GenFields where
  suno_song_ids : Option (List String) := none
  audio_urls : Option (List String) := none
  tg_file_ids : Option (List String) := none
  credits_spent : Option Int := none
  error_message : Option String := none
deriving Repr, DecidableEq

/-- The row transformation performed by one `update_generation_status`
call: set the status, overwrite exactly the supplied fields, and stamp
`completed_at` when the new status is terminal. -/
def applyFields (g : Gen) (status : String) (f : GenFields) (now : Nat) : Gen :=
  { g with
    status := status
    suno_song_ids := f.suno_song_ids.getD g.suno_song_ids
    audio_urls := f.audio_urls.getD g.audio_urls
    tg_file_ids := f.tg_file_ids.getD g.tg_file_ids
    credits_spent := f.credits_spent.getD g.credits_spent
    error_message := match f.error_message with
      | some e => some e
      | none => g.error_message
    completed_at := if status = "complete" ∨ status = "error" then some now
      else g.completed_at }

/-- `update_generation_status`: UPDATE generations SET status = $2, ...
WHERE id = $1 — an unconditional write on the row with the given id. -/
def update_generation_status (db : DB) (gid : Nat) (status : String)
    (f : GenFields) (now : Nat) : DB :=
  { db with gens := db.gens.map (fun g =>
      if g.id = gid then applyFields g status f now else g) }

/-- `create_generation`: INSERT a fresh 'pending' row, RETURNING id. -/
def create_generation (db : DB) (uid : Nat) (prompt style : String)
    (voice_gender : Option String) (mode : String) (now : Nat) : DB × Nat :=
  ({ db with
      gens := db.gens ++ [{
        id := db.next_gen_id, user_id := uid, suno_song_ids := [],
        prompt := prompt, style := style, voice_gender := voice_gender,
        mode := mode, status := "pending", audio_urls := [], tg_file_ids := [],
        credits_spent := 0, error_message := none, callback_chat_id := none,
        callback_message_id := none, created_at := now, completed_at := none,
        unlocked := false }],
      next_gen_id := db.next_gen_id + 1 },
   db.next_gen_id)

/-- `update_generation_callback_info`: store chat and message ids. -/
def update_generation_callback_info (db : DB) (gid : Nat)
    (chat_id message_id : Int) : DB :=
  { db with gens := db.gens.map (fun g =>
      if g.id = gid then
        { g with callback_chat_id := some chat_id,
                 callback_message_id := some message_id } else g) }

/-- `get_generation_by_task_id`: SELECT * FROM generations WHERE $1 =
ANY(suno_song_ids) ORDER BY created_at DESC LIMIT 1. -/
def get_generation_by_task_id (db : DB) (tid : String) : Option Gen :=
  match db.gens.filter (fun g => g.suno_song_ids.contains tid) with
  | [] => none
  | g :: gs => some (gs.foldl (fun best x =>
      if best.created_at < x.created_at then x else best) g)

/-- `get_generation`: SELECT * FROM generations WHERE id = $1. -/
def get_generation (db : DB) (gid : Nat) : Option Gen :=
  db.gens.find? (fun g => g.id == gid)

/-- `get_stuck_generations`: generations in status 'processing' or
'pending' created more than `timeout_minutes` before `now` (the ORDER BY
created_at ASC of the query does not change the selected set). -/
def get_stuck_generations (db : DB) (now timeout_minutes : Nat) : List Gen :=
  db.gens.filter (fun g =>
    (g.status == "processing" || g.status == "pending")
      && decide (g.created_at + timeout_minutes * 60 < now))

/-- One element of the webhook payload's `data.data` array; `none` models
a missing JSON key. -/
structure SongItem where
  id : Option String
  audio_url : Option String
  stream_audio_url : Option String
  image_url : Option String
  title : Option String
deriving Repr, DecidableEq

/-- The parsed JSON body POSTed to /callback/suno: top-level `code` and
`msg`, and inside `data` the task id (defaulted to the empty string), the
callbackType (defaulted likewise) and the result array (defaulted to
empty). -/
structure CallbackPayload where
  code : Int
  msg : String
  task_id : String
  callbackType : String
  items : List SongItem
deriving Repr, DecidableEq

/-- The url taken per item: `s.get("audio_url") or
s.get("stream_audio_url", "")` — Python `or` falls through both on a
missing key and on an empty string. -/
def itemUrl (s : SongItem) : String :=
  match s.audio_url with
  | some a => if a = "" then s.stream_audio_url.getD "" else a
  | none => s.stream_audio_url.getD ""

/-- The audio url list accumulated by the handler's extraction loop. -/
def extractAudioUrls (items : List SongItem) : List String :=
  items.map itemUrl

/-- Background work spawned by the handlers (asyncio.create_task calls and
the watchdog's user message): the delivery events of the spec's output
channel. -/
inductive Event where
  | deliverResult (gen_id : Nat) (audio_urls image_urls song_titles song_ids : List String)
      (task_id : String) (is_free : Bool)
  | deliverError (gen_id : Nat) (error_msg : String)
  | notifyTimeout (gen_id : Nat)
deriving Repr, DecidableEq

/-- The HTTP responses the modelled handler paths produce (every modelled
path acknowledges with JSON status ok and HTTP 200). -/
inductive Resp where
  | okJson
deriving Repr, DecidableEq

/-- The success branch of `handle_suno_callback` (code == 200 and
callbackType == "complete"): extract the artifacts, bail out when no
audio urls, debit the live pool, log the ledger entry, mark the row
complete, unlock paid rows, and spawn delivery when a bot and a stored
chat id exist. -/
def hsc_success_branch (db : DB) (gen : Gen) (p : CallbackPayload)
    (bot : Bool) (now : Nat) : DB × List Event × Resp :=
  let audio_urls := extractAudioUrls p.items
  let image_urls := p.items.map (fun s => s.image_url.getD "")
  let song_titles := p.items.map (fun s => s.title.getD "AI Melody Track")
  let song_ids := p.items.map (fun s => s.id.getD "")
  if audio_urls = [] then (db, [], .okJson)
  else
    let debited : DB × Bool :=
      match get_user db gen.user_id with
      | none => (db, false)
      | some u =>
        let is_free := decide (u.free_generations_left > 0)
        let db1 :=
          if u.free_generations_left > 0 then
            log_balance_transaction (use_free_generation db gen.user_id).1
              gen.user_id (-1) "free_generation"
              ("Бесплатная генерация #" ++ toString gen.id)
          else
            log_balance_transaction (update_user_credits db gen.user_id (-1))
              gen.user_id (-1) "generation" ("Генерация #" ++ toString gen.id)
        (update_last_generation db1 gen.user_id now, is_free)
    let is_free := debited.2
    let credits_spent : Int := if is_free then 0 else 1
    let db2 := update_generation_status debited.1 gen.id "complete"
      { audio_urls := some audio_urls, credits_spent := some credits_spent } now
    let db3 := if is_free then db2 else unlock_generation db2 gen.id
    let evs := if bot ∧ gen.callback_chat_id.isSome then
        [Event.deliverResult gen.id audio_urls image_urls song_titles song_ids
          p.task_id is_free]
      else []
    (db3, evs, .okJson)

/-- The error branch of `handle_suno_callback` (code != 200 or
callbackType == "error"). -/
def hsc_error_branch (db : DB) (gen : Gen) (p : CallbackPayload)
    (bot : Bool) (now : Nat) : DB × List Event × Resp :=
  let db1 := update_generation_status db gen.id "error"
    { error_message := some p.msg } now
  let evs := if bot ∧ gen.callback_chat_id.isSome then
      [Event.deliverError gen.id p.msg]
    else []
  (db1, evs, .okJson)

/-- `handle_suno_callback` of `src/app/handlers/callback.py`: ignore
payloads without a task id, acknowledge intermediate callback types,
look the generation up by task id, skip rows already marked complete,
then dispatch on the signal outcome.  `bot` is whether the aiohttp app
exposes a bot instance. -/
def handle_suno_callback (db : DB) (p : CallbackPayload) (bot : Bool)
    (now : Nat) : DB × List Event × Resp :=
  if p.task_id = "" then (db, [], .okJson)
  else if p.callbackType = "text" ∨ p.callbackType = "first" then (db, [], .okJson)
  else
    match get_generation_by_task_id db p.task_id with
    | none => (db, [], .okJson)
    | some gen =>
      if gen.status = "complete" then (db, [], .okJson)
      else if p.code = 200 ∧ p.callbackType = "complete" then
        hsc_success_branch db gen p bot now
      else if p.code ≠ 200 ∨ p.callbackType = "error" then
        hsc_error_branch db gen p bot now
      else (db, [], .okJson)

/-- `GENERATION_TIMEOUT_MINUTES` of `src/main.py`. -/
def GENERATION_TIMEOUT_MINUTES : Nat := 10

/-- One iteration of the `generation_watchdog` loop of `src/main.py`:
fetch the stuck generations, mark each error with message "timeout", and
notify the affected user. -/
def watchdog_sweep (db : DB) (now : Nat) : DB × List Event :=
  let stuck := get_stuck_generations db now GENERATION_TIMEOUT_MINUTES
  (stuck.foldl (fun d g =>
      update_generation_status d g.id "error" { error_message := some "timeout" } now)
    db,
   stuck.map (fun g => Event.notifyTimeout g.id))

/-- `complete_tbank_payment`: find a pending tbank payment with the order
id, mark it completed, credit the purchased amount to the user, and
return the original row; `none` (and no state change) when no pending
row matches. -/
def complete_tbank_payment (db : DB) (order_id tbank_payment_id : String) :
    DB × Option Payment :=
  match db.payments.find? (fun p =>
      p.order_id == some order_id && p.payment_type == "tbank"
        && p.status == "pending") with
  | none => (db, none)
  | some pay =>
    let db1 := { db with payments := db.payments.map (fun q =>
        if q.id = pay.id then
          { q with status := "completed", tbank_payment_id := some tbank_payment_id }
        else q) }
    (update_user_credits db1 pay.user_id pay.credits_purchased, some pay)

/-- The database effect of `handle_tbank_notification` of `src/main.py`
for a token-verified notification: only a CONFIRMED status triggers
`complete_tbank_payment`; everything else is acknowledged untouched. -/
def handle_tbank_notification (db : DB) (status order_id payment_id : String) :
    DB × Option Payment :=
  if status = "CONFIRMED" then complete_tbank_payment db order_id payment_id
  else (db, none)

/-- The configuration fields of `src/app/config.py` that the generation
flow reads; `callback_base_url` is truthy when non-empty. -/
structure Config where
  callback_base_url : String
  max_generations_per_hour : Nat
  max_generations_per_user_per_day : Nat
  min_account_age_hours : Nat
  min_telegram_user_id : Nat
deriving Repr, DecidableEq

/-- `count_user_generations_today`: rows of the user created at or after
the current day's start (`created_at >= CURRENT_DATE`). -/
def count_user_generations_today (db : DB) (uid day_start : Nat) : Nat :=
  (db.gens.filter (fun g => g.user_id == uid && decide (day_start ≤ g.created_at))).length

/-- `count_generations_last_hour`: rows with
`created_at >= NOW() - INTERVAL 1 hour`. -/
def count_generations_last_hour (db : DB) (now : Nat) : Nat :=
  (db.gens.filter (fun g => decide (now ≤ g.created_at + 3600))).length

/-- The distinct outcomes of `check_limits` (the Python function returns
the corresponding message text from `app.texts`, or None when allowed;
`app/texts.py` is not among the shipped sources, so only the branch
identity is modelled). -/
inductive LimitError where
  | notRegistered
  | blocked
  | rateLimitUser
  | rateLimitGlobal
deriving Repr, DecidableEq

/-- `check_limits` of `src/app/handlers/generation.py`. -/
def check_limits (cfg : Config) (db : DB) (uid day_start now : Nat) :
    Option LimitError :=
  match get_user db uid with
  | none => some .notRegistered
  | some u =>
    if u.is_blocked then some .blocked
    else if count_user_generations_today db uid day_start
        ≥ cfg.max_generations_per_user_per_day then some .rateLimitUser
    else if count_generations_last_hour db now
        ≥ cfg.max_generations_per_hour then some .rateLimitGlobal
    else none

/-- `check_credits` of `src/app/handlers/generation.py`: the free pool
counts only past the account-age and maximum-account-id gates; paid
credits always count.  The Python code indexes the user row directly, so
the result is defined only for registered users. -/
def check_credits (cfg : Config) (db : DB) (uid now : Nat) :
    Option (Bool × User) :=
  match get_user db uid with
  | none => none
  | some u =>
    let has_free0 := decide (u.free_generations_left > 0)
    let has_free1 :=
      if has_free0 ∧ cfg.min_account_age_hours > 0
          ∧ now < u.created_at + cfg.min_account_age_hours * 3600 then false
      else has_free0
    let has_free :=
      if has_free1 ∧ cfg.min_telegram_user_id > 0
          ∧ uid > cfg.min_telegram_user_id then false
      else has_free1
    some (u.credits > 0 || has_free, u)

/-- How far `start_creation` gets before the wizard proper. -/
inductive StartOutcome where
  | rejected (e : LimitError)
  | noCredits
  | proceedToWizard
deriving Repr, DecidableEq

/-- `start_creation` of `src/app/handlers/generation.py` up to the FSM
hand-off: the rate-limit and blocked gate, then the credit gate. -/
def start_creation (cfg : Config) (db : DB) (uid day_start now : Nat) :
    StartOutcome :=
  match check_limits cfg db uid day_start now with
  | some e => .rejected e
  | none =>
    match check_credits cfg db uid now with
    | none => .noCredits
    | some (has, _) => if has then .proceedToWizard else .noCredits

/-- The exceptions the Suno client raises inside `do_generate`'s try
block. -/
inductive SunoError where
  | contentPolicy
  | api (msg : String)
  | unexpected (msg : String)
deriving Repr, DecidableEq

/-- How one `do_generate` invocation ends. -/
inductive DoGenResult where
  | noCredits
  | submittedWithCallback (gen_id : Nat)
  | completed (gen_id : Nat)
  | failed (gen_id : Nat) (e : SunoError)
deriving Repr, DecidableEq

/-- The shared except-branches of `do_generate`: a ContentPolicyError
increments the violation counter and stores error "content_policy"; any
other exception stores its message.  No branch touches a balance or the
ledger. -/
def do_generate_error (db : DB) (gid uid : Nat) (e : SunoError) (now : Nat) :
    DB × DoGenResult :=
  match e with
  | .contentPolicy =>
    let db1 := (increment_content_violations db uid).1
    (update_generation_status db1 gid "error"
      { error_message := some "content_policy" } now, .failed gid e)
  | .api m =>
    (update_generation_status db gid "error" { error_message := some m } now,
     .failed gid e)
  | .unexpected m =>
    (update_generation_status db gid "error" { error_message := some m } now,
     .failed gid e)

/-- The url taken per song on the polling path: `s.get("audioUrl") or
s.get("streamAudioUrl", "")` (camelCase keys, same fall-through). -/
def pollSongUrl (s : SongItem) : String :=
  match s.audio_url with
  | some a => if a = "" then s.stream_audio_url.getD "" else a
  | none => s.stream_audio_url.getD ""

/-- `do_generate` of `src/app/handlers/generation.py`: the final credit
check against the user snapshot, row creation, submission, and — when no
callback url is configured — the polling completion with its debit,
single 'generation' ledger entry and `credits_spent := 1` status write.
`submit` is the outcome of `client.generate`, `poll` the outcome of
`client.wait_for_completion`, `chat_id`/`message_id` locate the status
message for the callback path. -/
def do_generate (cfg : Config) (db : DB) (uid : Nat)
    (prompt style : String) (voice_gender : Option String) (mode : String)
    (submit : Except SunoError String) (poll : Except SunoError (List SongItem))
    (chat_id message_id : Int) (now : Nat) : DB × DoGenResult :=
  match check_credits cfg db uid now with
  | none => (db, .noCredits)
  | some (has, user) =>
    if ¬ has then (db, .noCredits)
    else
      let created := create_generation db uid prompt style voice_gender mode now
      let db1 := created.1
      let gid := created.2
      match submit with
      | .error e => do_generate_error db1 gid uid e now
      | .ok task_id =>
        let db2 := update_generation_status db1 gid "processing"
          { suno_song_ids := some [task_id] } now
        if cfg.callback_base_url ≠ "" then
          (update_generation_callback_info db2 gid chat_id message_id,
           .submittedWithCallback gid)
        else
          match poll with
          | .error e => do_generate_error db2 gid uid e now
          | .ok songs =>
            let audio_urls := songs.map pollSongUrl
            let db3 :=
              if user.free_generations_left > 0 then
                (use_free_generation db2 uid).1
              else update_user_credits db2 uid (-1)
            let db4 := log_balance_transaction db3 uid (-1) "generation"
              ("Генерация #" ++ toString gid)
            let db5 := update_last_generation db4 uid now
            let db6 := update_generation_status db5 gid "complete"
              { audio_urls := some audio_urls, credits_spent := some 1 } now
            (db6, .completed gid)

/-- The net effect of the webhook success path on the job owner's row:
the live free pool is consulted at completion time — the free pool is
decremented when it is positive at that moment, the paid pool otherwise —
and the last-generation stamp is set. -/
def debitedUser (u : User) (now : Nat) : User :=
  if u.free_generations_left > 0 then
    { u with free_generations_left := u.free_generations_left - 1,
             last_generation_at := some now }
  else
    { u with credits := u.credits - 1, last_generation_at := some now }

/-- The row value the webhook success path writes for the claimed job:
artifacts attached, credits_spent 0 when the free pool paid and 1
otherwise, and the row additionally unlocked on the paid branch. -/
def completionRow (g : Gen) (urls : List String) (is_free : Bool) (now : Nat) : Gen :=
  let y := applyFields g "complete"
    { audio_urls := some urls,
      credits_spent := some (if is_free then (0 : Int) else 1) } now
  if is_free then y else { y with unlocked := true }

/-- The pointwise effect of the webhook success path on the generations
table: rows with the claimed id get `completionRow`, others are kept. -/
def completionMap (gid : Nat) (urls : List String) (is_free : Bool) (now : Nat)
    (x : Gen) : Gen :=
  if x.id = gid then completionRow x urls is_free now else x

/-! Concrete fixtures used to evaluate the handlers on explicit inputs. -/

/-- A user row with all-default fields. -/
def baseUser : User :=
  { telegram_id := 0, credits := 0, free_generations_left := 0,
    content_violations := 0, is_blocked := false, created_at := 0,
    last_generation_at := none }

/-- A generation row with all-default fields. -/
def baseGen : Gen :=
  { id := 0, user_id := 0, suno_song_ids := [], prompt := "", style := "",
    voice_gender := none, mode := "description", status := "pending",
    audio_urls := [], tg_file_ids := [], credits_spent := 0,
    error_message := none, callback_chat_id := none,
    callback_message_id := none, created_at := 0, completed_at := none,
    unlocked := false }

/-- An empty database. -/
def emptyDB : DB :=
  { users := [], gens := [], ledger := [], payments := [],
    next_gen_id := 1, next_payment_id := 1 }

/-- One successful song result as the provider posts it. -/
def sampleItem : SongItem :=
  { id := some "song-1", audio_url := some "https://cdn.example/a.mp3",
    stream_audio_url := none, image_url := some "https://cdn.example/a.jpg",
    title := some "Track" }

/-- A genuine successful completion payload for task-1. -/
def samplePayload : CallbackPayload :=
  { code := 200, msg := "All generated successfully.", task_id := "task-1",
    callbackType := "complete", items := [sampleItem] }

/-- A database with one paid user and one in-flight generation for
task-1. -/
def c9DB : DB :=
  { emptyDB with
    users := [{ baseUser with telegram_id := 7, credits := 2 }],
    gens := [{ baseGen with
                 id := 1, user_id := 7,
                 suno_song_ids := ["task-1"], status := "processing",
                 callback_chat_id := some 77 }],
    next_gen_id := 2 }

/-- An intermediate (callbackType "text") signal for task-1. -/
def c9TextPayload : CallbackPayload :=
  { samplePayload with callbackType := "text" }

/-- A completion signal whose task id matches no stored generation. -/
def c9UnknownPayload : CallbackPayload :=
  { samplePayload with task_id := "task-unknown" }

/-- The owner in the watchdog-race scenario: no free credits, two paid. -/
def c1User : User := { baseUser with telegram_id := 7, credits := 2 }

/-- A generation the Watchdog already forced to Error("timeout"). -/
def c1ErrGen : Gen :=
  { baseGen with
      id := 1, user_id := 7, suno_song_ids := ["task-1"], status := "error",
      error_message := some "timeout", callback_chat_id := some 77,
      completed_at := some 660 }

/-- A database where the Watchdog has already claimed the only job. -/
def c1DB : DB :=
  { emptyDB with users := [c1User], gens := [c1ErrGen], next_gen_id := 2 }

/-- A database with one in-flight generation awaiting task-1. -/
def c8DB : DB :=
  { emptyDB with
    users := [{ baseUser with telegram_id := 7, credits := 2 }],
    gens := [{ baseGen with
                 id := 1, user_id := 7, suno_song_ids := ["task-1"],
                 status := "processing", callback_chat_id := some 77 }],
    next_gen_id := 2 }

/-- A success payload whose result array is empty: no audio references. -/
def c8EmptyPayload : CallbackPayload := { samplePayload with items := [] }

/-- A database whose single generation already reached Complete. -/
def c3DB : DB :=
  { emptyDB with
    users := [{ baseUser with telegram_id := 7, credits := 2 }],
    gens := [{ baseGen with
                 id := 1, user_id := 7,
                 suno_song_ids := ["task-1"], status := "complete",
                 audio_urls := ["https://cdn.example/a.mp3"],
                 credits_spent := 1, completed_at := some 40 }],
    next_gen_id := 2 }

/-- An in-flight generation shared by the mid-flight balance scenarios. -/
def c4Gen : Gen :=
  { baseGen with
      id := 1, user_id := 7, suno_song_ids := ["task-1"],
      status := "processing", callback_chat_id := some 77 }

/-- The owner at completion time after spending the free pool mid-flight:
0 free, 5 paid. -/
def c4aUser : User :=
  { baseUser with telegram_id := 7, credits := 5, free_generations_left := 0 }

/-- The same owner in a world where one free credit is still left. -/
def c4bUser : User :=
  { baseUser with telegram_id := 7, credits := 5, free_generations_left := 1 }

/-- Database: identical stored job, owner has 0 free / 5 paid. -/
def c4aDB : DB :=
  { emptyDB with users := [c4aUser], gens := [c4Gen], next_gen_id := 2 }

/-- Database: identical stored job, owner has 1 free / 5 paid. -/
def c4bDB : DB :=
  { emptyDB with users := [c4bUser], gens := [c4Gen], next_gen_id := 2 }

/-- Default-like configuration with polling mode (no callback url) and
both free-pool gates disabled. -/
def c5Cfg : Config :=
  { callback_base_url := "", max_generations_per_hour := 30,
    max_generations_per_user_per_day := 10, min_account_age_hours := 0,
    min_telegram_user_id := 0 }

/-- The free-tier owner of the accounting scenario: 0 paid, 2 free. -/
def c5User : User :=
  { baseUser with telegram_id := 7, credits := 0, free_generations_left := 2 }

/-- Database holding only the free-tier owner. -/
def c5DB : DB := { emptyDB with users := [c5User] }

/-- One full polling-path generation for the free-tier owner: submission
succeeds with task-9 and the poll returns one song. -/
def c5Run : DB × DoGenResult :=
  do_generate c5Cfg c5DB 7 "Песня о лете" "pop" none "description"
    (Except.ok "task-9") (Except.ok [sampleItem]) 10 11 0

/-- Database for the webhook-path half of the accounting scenario: the
free-tier owner plus an in-flight job for task-1. -/
def c5wDB : DB :=
  { emptyDB with users := [c5User], gens := [c4Gen], next_gen_id := 2 }

/-- A job stuck in 'processing' since time 0. -/
def c6Stale : Gen :=
  { baseGen with
      id := 1, user_id := 7, suno_song_ids := ["task-1"],
      status := "processing", created_at := 0 }

/-- A younger in-flight job, inside the timeout window. -/
def c6Fresh : Gen :=
  { baseGen with
      id := 2, user_id := 7, suno_song_ids := ["task-2"],
      status := "processing", created_at := 2000 }

/-- Database with one stale and one fresh in-flight job. -/
def c6DB : DB :=
  { emptyDB with
    users := [{ baseUser with telegram_id := 7, credits := 2 }],
    gens := [c6Stale, c6Fresh], next_gen_id := 3 }

/-- A paying user one violation short of the auto-block threshold. -/
def c7User : User :=
  { baseUser with telegram_id := 7, credits := 3, content_violations := 2 }

/-- Database holding only that user. -/
def c7DB : DB := { emptyDB with users := [c7User] }

/-- Database holding an already auto-blocked user. -/
def c7BlockedDB : DB :=
  { emptyDB with users := [{ baseUser with telegram_id := 9, is_blocked := true }] }

/-- A pending T-Bank payment of 10 credits for order ord-1. -/
def c10Pay : Payment :=
  { id := 1, user_id := 7, order_id := some "ord-1",
    payment_type := "tbank", status := "pending", stars_amount := 0,
    amount_rub := 299, credits_purchased := 10, tbank_payment_id := none }

/-- Database holding the buyer and the pending payment. -/
def c10DB : DB :=
  { emptyDB with
    users := [{ baseUser with telegram_id := 7, credits := 2 }],
    payments := [c10Pay], next_payment_id := 2 }

end TelegramSunoBot

namespace TelegramSunoBot

/-! General list lemmas about lookups and conditional row updates. -/

theorem find?_map_pres {α : Type} (p : α → Bool) (h : α → α) (l : List α)
    (hp : ∀ x, p (h x) = p x) :
    (l.map h).find? p = (l.find? p).map h := by
  induction l with
  | nil => rfl
  | cons a t ih =>
    simp only [List.map_cons, List.find?]
    rw [hp a]
    cases hpa : p a <;> simp [ih]

theorem filter_map_pres {α : Type} (p : α → Bool) (h : α → α) (l : List α)
    (hp : ∀ x, p (h x) = p x) :
    (l.map h).filter p = (l.filter p).map h := by
  induction l with
  | nil => rfl
  | cons a t ih =>
    simp only [List.map_cons, List.filter]
    rw [hp a]
    cases hpa : p a <;> simp [ih]

theorem foldl_map_fold {α β : Type} (f : β → α → α) (ss : List β)
    (l : List α) :
    ss.foldl (fun acc s => acc.map (f s)) l
      = l.map (fun a => ss.foldl (fun x s => f s x) a) := by
  induction ss generalizing l with
  | nil => simp
  | cons s t ih => simp [ih, List.map_map, Function.comp]

theorem foldl_keyed_no_match {α : Type} (key : α → Nat) (e : α → α)
    (ss : List α) (a : α) (h : ∀ s ∈ ss, key a ≠ key s) :
    ss.foldl (fun r s => if key r = key s then e r else r) a = a := by
  induction ss with
  | nil => rfl
  | cons s t ih =>
    have hs : key a ≠ key s := h s (List.mem_cons_self s t)
    simp only [List.foldl_cons, if_neg hs]
    exact ih (fun x hx => h x (List.mem_cons_of_mem s hx))

theorem foldl_keyed_single_match {α : Type} (key : α → Nat) (e : α → α)
    (he : ∀ x, key (e x) = key x) (ss : List α) (a : α) (ha : a ∈ ss)
    (hnd : (ss.map key).Nodup) :
    ss.foldl (fun r s => if key r = key s then e r else r) a = e a := by
  induction ss with
  | nil => cases ha
  | cons s t ih =>
    simp only [List.map_cons, List.nodup_cons] at hnd
    rcases List.mem_cons.1 ha with rfl | hat
    · simp only [List.foldl_cons, if_pos rfl]
      exact foldl_keyed_no_match key e t (e a)
        (fun x hx => by
          rw [he a]
          intro hkey
          exact hnd.1 (hkey ▸ List.mem_map_of_mem key hx))
    · have hne : key a ≠ key s := by
        intro hkey
        exact hnd.1 (hkey ▸ List.mem_map_of_mem key hat)
      simp only [List.foldl_cons, if_neg hne]
      exact ih hat hnd.2

theorem get_user_map_update (db : DB) (uid : Nat) (f : User → User)
    (hf : ∀ u, (f u).telegram_id = u.telegram_id) :
    get_user { db with users := db.users.map (fun u =>
        if u.telegram_id = uid then f u else u) } uid
      = (get_user db uid).map (fun u => if u.telegram_id = uid then f u else u) := by
  unfold get_user
  exact find?_map_pres _ _ _ (fun x => by
    by_cases hx : x.telegram_id = uid <;> simp [hx, hf])

theorem get_user_telegram_id (db : DB) (uid : Nat) (u : User)
    (h : get_user db uid = some u) : u.telegram_id = uid := by
  unfold get_user at h
  simpa using List.find?_some h

theorem get_user_uncond_update (db : DB) (uid : Nat) (f : User → User)
    (hf : ∀ u, (f u).telegram_id = u.telegram_id) :
    get_user { db with users := db.users.map (fun u =>
        if u.telegram_id = uid then f u else u) } uid
      = (get_user db uid).map f := by
  rw [get_user_map_update db uid f hf]
  cases h : get_user db uid with
  | none => rfl
  | some u =>
    have hu : u.telegram_id = uid := get_user_telegram_id db uid u h
    simp [hu]

theorem get_user_cond_update (db : DB) (uid : Nat) (c : User → Prop)
    [DecidablePred c] (f : User → User)
    (hf : ∀ u, (f u).telegram_id = u.telegram_id) :
    get_user { db with users := db.users.map (fun u =>
        if u.telegram_id = uid ∧ c u then f u else u) } uid
      = (get_user db uid).map (fun u => if c u then f u else u) := by
  unfold get_user
  rw [find?_map_pres]
  · cases h : db.users.find? (fun u => u.telegram_id == uid) with
    | none => rfl
    | some u =>
      have hu : u.telegram_id = uid := by simpa using List.find?_some h
      by_cases hc : c u <;> simp [hu, hc]
  · intro x
    by_cases h1 : x.telegram_id = uid <;> by_cases h2 : c x <;> simp [h1, h2, hf]

theorem get_user_update_user_credits (db : DB) (uid : Nat) (delta : Int) :
    get_user (update_user_credits db uid delta) uid
      = (get_user db uid).map (fun u => { u with credits := u.credits + delta }) :=
  get_user_uncond_update db uid _ (fun _ => rfl)

theorem get_user_update_last_generation (db : DB) (uid now : Nat) :
    get_user (update_last_generation db uid now) uid
      = (get_user db uid).map (fun u => { u with last_generation_at := some now }) :=
  get_user_uncond_update db uid _ (fun _ => rfl)

theorem get_user_increment_content_violations (db : DB) (uid : Nat) :
    get_user (increment_content_violations db uid).1 uid
      = (get_user db uid).map (fun u =>
          { u with content_violations := u.content_violations + 1,
                   is_blocked := if u.content_violations + 1 ≥ 3 then true
                     else u.is_blocked }) :=
  get_user_uncond_update db uid _ (fun _ => rfl)

theorem get_user_use_free_generation (db : DB) (uid : Nat) :
    get_user (use_free_generation db uid).1 uid
      = (get_user db uid).map (fun u =>
          if u.free_generations_left > 0 then
            { u with free_generations_left := u.free_generations_left - 1 }
          else u) :=
  get_user_cond_update db uid _ _ (fun _ => rfl)

theorem get_user_update_generation_status (db : DB) (gid : Nat) (st : String)
    (f : GenFields) (now uid : Nat) :
    get_user (update_generation_status db gid st f now) uid = get_user db uid := rfl

theorem get_user_unlock_generation (db : DB) (gid uid : Nat) :
    get_user (unlock_generation db gid) uid = get_user db uid := rfl

theorem get_user_log_balance_transaction (db : DB) (uid2 : Nat) (d : Int)
    (s de : String) (uid : Nat) :
    get_user (log_balance_transaction db uid2 d s de) uid = get_user db uid := rfl

theorem get_generation_map_update (db : DB) (gid : Nat) (h : Gen → Gen)
    (hid : ∀ g, (h g).id = g.id) :
    get_generation { db with gens := db.gens.map h } gid
      = (get_generation db gid).map h := by
  unfold get_generation
  exact find?_map_pres _ _ _ (fun x => by simp [hid x])

theorem get_generation_append_fresh (db : DB) (g : Gen)
    (hfresh : ∀ x ∈ db.gens, x.id ≠ g.id) :
    get_generation { db with gens := db.gens ++ [g] } g.id = some g := by
  unfold get_generation
  rw [List.find?_append]
  have h1 : db.gens.find? (fun x => x.id == g.id) = none :=
    List.find?_eq_none.2 (fun x hx => by simpa using hfresh x hx)
  simp [h1]

theorem get_generation_update_status (db : DB) (gid : Nat) (st : String)
    (f : GenFields) (now gid2 : Nat) :
    get_generation (update_generation_status db gid st f now) gid2
      = (get_generation db gid2).map
          (fun g => if g.id = gid then applyFields g st f now else g) := by
  unfold update_generation_status
  exact get_generation_map_update _ gid2 _
    (fun g => by by_cases h : g.id = gid <;> simp [h, applyFields])

theorem get_generation_use_free_generation (db : DB) (uid gid : Nat) :
    get_generation (use_free_generation db uid).1 gid = get_generation db gid := rfl

theorem get_generation_update_user_credits (db : DB) (uid : Nat) (delta : Int)
    (gid : Nat) :
    get_generation (update_user_credits db uid delta) gid = get_generation db gid := rfl

theorem get_generation_update_last_generation (db : DB) (uid now gid : Nat) :
    get_generation (update_last_generation db uid now) gid = get_generation db gid := rfl

theorem get_generation_log_balance_transaction (db : DB) (uid2 : Nat)
    (d : Int) (s de : String) (gid : Nat) :
    get_generation (log_balance_transaction db uid2 d s de) gid
      = get_generation db gid := rfl

theorem get_user_create_generation (db : DB) (uid : Nat) (pr st : String)
    (vg : Option String) (md : String) (now uid2 : Nat) :
    get_user (create_generation db uid pr st vg md now).1 uid2
      = get_user db uid2 := rfl

theorem get_user_set_payments (db : DB) (ps : List Payment) (uid : Nat) :
    get_user { db with payments := ps } uid = get_user db uid := rfl

theorem payments_update_user_credits (db : DB) (uid : Nat) (delta : Int) :
    (update_user_credits db uid delta).payments = db.payments := rfl

theorem get_generation_increment_content_violations (db : DB) (uid gid : Nat) :
    get_generation (increment_content_violations db uid).1 gid
      = get_generation db gid := rfl

theorem create_generation_snd (db : DB) (uid : Nat) (pr st : String)
    (vg : Option String) (md : String) (now : Nat) :
    (create_generation db uid pr st vg md now).2 = db.next_gen_id := rfl

theorem find?_gens_append_fresh (l : List Gen) (g : Gen)
    (hfresh : ∀ x ∈ l, x.id ≠ g.id) :
    (l ++ [g]).find? (fun x => x.id == g.id) = some g := by
  rw [List.find?_append]
  have h1 : l.find? (fun x => x.id == g.id) = none :=
    List.find?_eq_none.2 (fun x hx => by simpa using hfresh x hx)
  simp [h1]

/-- Shared guard lemma: a signal whose task id resolves to a row already
in status "complete" is answered with ok and changes nothing. -/
theorem hsc_complete_noop (db : DB) (p : CallbackPayload) (bot : Bool)
    (now : Nat) (g : Gen)
    (hg : get_generation_by_task_id db p.task_id = some g)
    (hc : g.status = "complete") :
    handle_suno_callback db p bot now = (db, [], Resp.okJson) := by
  unfold handle_suno_callback
  by_cases ht : p.task_id = ""
  · simp [ht]
  · by_cases hcb : p.callbackType = "text" ∨ p.callbackType = "first"
    · simp [ht, hcb]
    · simp [ht, hcb, hg, hc]

/-- Shared dispatch lemma: a non-empty task id, a non-intermediate type,
a found row not yet complete, code 200 and type "complete" route the
handler into its success branch. -/
theorem hsc_dispatch_success (db : DB) (p : CallbackPayload) (bot : Bool)
    (now : Nat) (g : Gen)
    (htid : p.task_id ≠ "")
    (hg : get_generation_by_task_id db p.task_id = some g)
    (hnc : g.status ≠ "complete")
    (hcode : p.code = 200) (htype : p.callbackType = "complete") :
    handle_suno_callback db p bot now = hsc_success_branch db g p bot now := by
  unfold handle_suno_callback
  have hcb : ¬ (p.callbackType = "text" ∨ p.callbackType = "first") := by
    simp [htype]
  simp [htid, hcb, hg, hnc, hcode, htype]

/-- Shared success-branch lemma: the ledger gains exactly the one debit
entry, whose source tag is decided by the owner's live free pool. -/
theorem hsc_success_ledger (db : DB) (g : Gen) (p : CallbackPayload)
    (bot : Bool) (now : Nat) (u : User)
    (hurls : extractAudioUrls p.items ≠ [])
    (hu : get_user db g.user_id = some u) :
    (hsc_success_branch db g p bot now).1.ledger
      = db.ledger ++ [⟨g.user_id, -1,
          if u.free_generations_left > 0 then "free_generation" else "generation",
          (if u.free_generations_left > 0 then "Бесплатная генерация #"
           else "Генерация #") ++ toString g.id⟩] := by
  unfold hsc_success_branch
  by_cases hfree : u.free_generations_left > 0 <;>
    simp [hu, hurls, hfree, log_balance_transaction, use_free_generation,
      update_user_credits, update_last_generation, update_generation_status,
      unlock_generation]

/-- Shared success-branch lemma: the owner's row afterwards is the
live-balance debit of its row before (free pool first when positive at
completion time, the paid pool otherwise). -/
theorem hsc_success_user (db : DB) (g : Gen) (p : CallbackPayload)
    (bot : Bool) (now : Nat) (u : User)
    (hurls : extractAudioUrls p.items ≠ [])
    (hu : get_user db g.user_id = some u) :
    get_user (hsc_success_branch db g p bot now).1 g.user_id
      = some (debitedUser u now) := by
  unfold hsc_success_branch
  by_cases hfree : u.free_generations_left > 0 <;>
    simp [hu, hurls, hfree, get_user_update_generation_status,
      get_user_unlock_generation, get_user_update_last_generation,
      get_user_log_balance_transaction, get_user_use_free_generation,
      get_user_update_user_credits, debitedUser, sub_eq_add_neg]

/-- Shared success-branch lemma: the generations table afterwards is the
pointwise completion update of the targeted id (artifacts attached,
credits_spent 0 for a free-pool debit and 1 otherwise, paid rows also
unlocked); every other row is untouched. -/
theorem hsc_success_gens (db : DB) (g : Gen) (p : CallbackPayload)
    (bot : Bool) (now : Nat) (u : User)
    (hurls : extractAudioUrls p.items ≠ [])
    (hu : get_user db g.user_id = some u) :
    (hsc_success_branch db g p bot now).1.gens
      = db.gens.map (completionMap g.id (extractAudioUrls p.items)
          (decide (u.free_generations_left > 0)) now) := by
  unfold hsc_success_branch
  by_cases hfree : u.free_generations_left > 0
  · simp [hu, hurls, hfree, completionMap, completionRow,
      log_balance_transaction, use_free_generation, update_user_credits,
      update_last_generation, update_generation_status, unlock_generation]
  · simp [hu, hurls, hfree, completionMap, completionRow,
      log_balance_transaction, use_free_generation, update_user_credits,
      update_last_generation, update_generation_status, unlock_generation,
      List.map_map]
    intro x hx
    by_cases hxg : x.id = g.id
    · simp [Function.comp, hxg, applyFields]
    · simp [Function.comp, hxg]

theorem completionMap_suno_song_ids (gid : Nat) (urls : List String)
    (b : Bool) (now : Nat) (x : Gen) :
    (completionMap gid urls b now x).suno_song_ids = x.suno_song_ids := by
  unfold completionMap completionRow
  by_cases hxg : x.id = gid <;> cases b <;> simp [hxg, applyFields]

theorem completionMap_self (g : Gen) (urls : List String) (b : Bool)
    (now : Nat) :
    completionMap g.id urls b now g = completionRow g urls b now := by
  simp [completionMap]

theorem completionRow_status (g : Gen) (urls : List String) (b : Bool)
    (now : Nat) : (completionRow g urls b now).status = "complete" := by
  unfold completionRow
  cases b <;> simp [applyFields]

theorem completionRow_credits_spent (g : Gen) (urls : List String) (b : Bool)
    (now : Nat) :
    (completionRow g urls b now).credits_spent = (if b then (0 : Int) else 1) := by
  unfold completionRow
  cases b <;> simp [applyFields]

/-- Shared success-branch lemma: exactly one delivery event is spawned
when a bot instance and a stored chat id exist, none otherwise. -/
theorem hsc_success_events (db : DB) (g : Gen) (p : CallbackPayload)
    (bot : Bool) (now : Nat) (u : User)
    (hurls : extractAudioUrls p.items ≠ [])
    (hu : get_user db g.user_id = some u) :
    (hsc_success_branch db g p bot now).2.1
      = (if bot ∧ g.callback_chat_id.isSome then
          [Event.deliverResult g.id (extractAudioUrls p.items)
            (p.items.map (fun s => s.image_url.getD ""))
            (p.items.map (fun s => s.title.getD "AI Melody Track"))
            (p.items.map (fun s => s.id.getD ""))
            p.task_id (decide (u.free_generations_left > 0))]
        else []) := by
  unfold hsc_success_branch
  by_cases hfree : u.free_generations_left > 0 <;> simp [hu, hurls, hfree]

/-- C9: an intermediate callbackType ("text" or "first") is acknowledged
with the ok JSON response before any lookup, and a completion signal whose
task id matches no stored generation is likewise acknowledged; in both
cases the database is unchanged and no delivery event is emitted. -/
theorem C9_intermediate_and_unknown_task_noop (db : DB)
    (p : CallbackPayload) (bot : Bool) (now : Nat) :
    (p.callbackType = "text" ∨ p.callbackType = "first" →
        handle_suno_callback db p bot now = (db, [], Resp.okJson))
    ∧ (get_generation_by_task_id db p.task_id = none →
        handle_suno_callback db p bot now = (db, [], Resp.okJson)) := by
  constructor
  · intro h
    unfold handle_suno_callback
    by_cases ht : p.task_id = ""
    · simp [ht]
    · simp [ht, h]
  · intro h
    unfold handle_suno_callback
    by_cases ht : p.task_id = ""
    · simp [ht]
    · by_cases hcb : p.callbackType = "text" ∨ p.callbackType = "first"
      · simp [ht, hcb]
      · simp [ht, hcb, h]

/-- C9 witness: the two conclusions evaluated on a concrete database,
once for an intermediate "text" payload, once for an unknown task id. -/
theorem C9_intermediate_and_unknown_task_noop_witness :
    handle_suno_callback c9DB c9TextPayload true 5 = (c9DB, [], Resp.okJson)
    ∧ handle_suno_callback c9DB c9UnknownPayload true 5 = (c9DB, [], Resp.okJson) :=
  ⟨(C9_intermediate_and_unknown_task_noop c9DB c9TextPayload true 5).1 (Or.inl rfl),
   (C9_intermediate_and_unknown_task_noop c9DB c9UnknownPayload true 5).2 (by decide)⟩

/-- C3 counterexample: `update_generation_status` is not conditional on
the current status: applied to a generation already in the terminal
status "complete" (the Watchdog's forced Error write), it overwrites the
row to "error" and changes the record, contradicting the claim that such
a call leaves the record unchanged. -/
theorem C3_counterexample :
    (get_generation
        (update_generation_status c3DB 1 "error"
          { error_message := some "timeout" } 50) 1).map Gen.status
      = some "error"
    ∧ update_generation_status c3DB 1 "error"
        { error_message := some "timeout" } 50 ≠ c3DB := by
  constructor
  · rfl
  · decide

/-- C3 amended: the job store's status update is an unconditional write:
for every stored generation with the targeted id — whatever its current
status, including the terminal ones — the updated row (with the new
status, the supplied fields and a completion stamp for terminal statuses)
is what the store holds afterwards; no transition is ever refused. -/
theorem C3_amended_unconditional_write (db : DB) (gid : Nat) (st : String)
    (f : GenFields) (now : Nat) (g : Gen) (hmem : g ∈ db.gens)
    (hid : g.id = gid) :
    applyFields g st f now ∈ (update_generation_status db gid st f now).gens
    ∧ (applyFields g st f now).status = st := by
  refine ⟨?_, rfl⟩
  unfold update_generation_status
  exact List.mem_map.2 ⟨g, hmem, by simp [hid]⟩

/-- C1 counterexample: the webhook guard only checks for status
"complete", not for "error": on a database where the Watchdog has already
forced the only job to Error, a genuine completion signal is NOT a no-op —
it debits one paid credit (2 to 1), appends a ledger entry, resurrects the
job to Complete, and emits a delivery event, so the handler does not treat
a job in the terminal Error state as a duplicate. -/
theorem C1_counterexample :
    ((handle_suno_callback c1DB samplePayload true 700).1.users.map User.credits
        = [1])
    ∧ ((handle_suno_callback c1DB samplePayload true 700).1.gens.map Gen.status
        = ["complete"])
    ∧ ((handle_suno_callback c1DB samplePayload true 700).1.ledger.length = 1)
    ∧ ((handle_suno_callback c1DB samplePayload true 700).2.1 ≠ []) := by
  decide

/-- C1 amended: only a job already in status Complete is treated as a
duplicate — for it the handler acknowledges and changes nothing.  A job
already in status Error is not protected: a genuine completion signal
arriving after the Watchdog's Error re-processes it, marking it Complete
and appending one debit ledger entry, so a job can leave the Error state
again. -/
theorem C1_amended_only_complete_is_duplicate (db : DB) (p : CallbackPayload)
    (bot : Bool) (now : Nat) (g : Gen) (u : User)
    (hg : get_generation_by_task_id db p.task_id = some g)
    (hu : get_user db g.user_id = some u) :
    (g.status = "complete" →
        handle_suno_callback db p bot now = (db, [], Resp.okJson))
    ∧ (g.status = "error" → p.task_id ≠ "" → p.code = 200 →
        p.callbackType = "complete" → extractAudioUrls p.items ≠ [] →
        (∀ g' ∈ (handle_suno_callback db p bot now).1.gens,
            g'.id = g.id → g'.status = "complete")
        ∧ (handle_suno_callback db p bot now).1.ledger.length
            = db.ledger.length + 1) := by
  constructor
  · intro hc
    exact hsc_complete_noop db p bot now g hg hc
  · intro herr htid hcode htype hurls
    have hnc : g.status ≠ "complete" := by rw [herr]; decide
    rw [hsc_dispatch_success db p bot now g htid hg hnc hcode htype]
    constructor
    · rw [hsc_success_gens db g p bot now u hurls hu]
      intro g' hg'
      rcases List.mem_map.1 hg' with ⟨x, hx, rfl⟩
      intro hid
      by_cases hxg : x.id = g.id
      · rw [show completionMap g.id (extractAudioUrls p.items)
            (decide (u.free_generations_left > 0)) now x
            = completionRow x (extractAudioUrls p.items)
              (decide (u.free_generations_left > 0)) now from by
          simp [completionMap, hxg]]
        exact completionRow_status x _ _ now
      · rw [show completionMap g.id (extractAudioUrls p.items)
            (decide (u.free_generations_left > 0)) now x = x from by
          simp [completionMap, hxg]] at hid
        exact absurd hid hxg
    · rw [hsc_success_ledger db g p bot now u hurls hu]
      simp

/-- C1 witness: the amended behaviour evaluated on the concrete
watchdog-race database: the resurrected job and the extra ledger entry. -/
theorem C1_amended_only_complete_is_duplicate_witness :
    (∀ g' ∈ (handle_suno_callback c1DB samplePayload true 700).1.gens,
        g'.id = c1ErrGen.id → g'.status = "complete")
    ∧ (handle_suno_callback c1DB samplePayload true 700).1.ledger.length
        = c1DB.ledger.length + 1 :=
  (C1_amended_only_complete_is_duplicate c1DB samplePayload true 700
      c1ErrGen c1User (by decide) (by decide)).2
    rfl (by decide) rfl rfl (by decide)

/-- C8 counterexample: a completion signal that reports success with an
empty artifact list does NOT move the job into the terminal Error state:
the handler acknowledges and leaves the whole database unchanged, so the
job stays in its non-terminal "processing" state. -/
theorem C8_counterexample :
    handle_suno_callback c8DB c8EmptyPayload true 700 = (c8DB, [], Resp.okJson)
    ∧ (get_generation c8DB 1).map Gen.status = some "processing" := by
  constructor
  · decide
  · rfl

/-- C8 amended: a success signal carrying no audio references is
acknowledged with the ok response and mutates nothing: the job keeps its
current (non-terminal) state, no credit is debited, no event is emitted;
the row is left to the Watchdog's timeout sweep. -/
theorem C8_amended_empty_artifacts_acknowledged (db : DB)
    (p : CallbackPayload) (bot : Bool) (now : Nat) (g : Gen)
    (hg : get_generation_by_task_id db p.task_id = some g)
    (hnc : g.status ≠ "complete")
    (htid : p.task_id ≠ "")
    (hcode : p.code = 200) (htype : p.callbackType = "complete")
    (hurls : extractAudioUrls p.items = []) :
    handle_suno_callback db p bot now = (db, [], Resp.okJson) := by
  rw [hsc_dispatch_success db p bot now g htid hg hnc hcode htype]
  unfold hsc_success_branch
  simp [hurls]

/-- C8 witness: the empty-artifact acknowledgement evaluated on the
concrete in-flight database. -/
theorem C8_amended_empty_artifacts_acknowledged_witness :
    handle_suno_callback c8DB c8EmptyPayload true 700 = (c8DB, [], Resp.okJson) :=
  C8_amended_empty_artifacts_acknowledged c8DB c8EmptyPayload true 700
    ({ baseGen with
         id := 1, user_id := 7, suno_song_ids := ["task-1"],
         status := "processing", callback_chat_id := some 77 })
    (by decide) (by decide) (by decide) rfl rfl rfl

/-- C2: on the success path (the payload's task id identifies exactly one
stored, not-yet-complete generation owned by an existing user, a bot and a
stored chat id are available), one application of the webhook completion
handler appends exactly one ledger debit entry and spawns exactly one
delivery event, and a second application of the same signal to the
resulting state acknowledges and changes nothing — the success path is
idempotent, leaving exactly one debit and one delivery overall. -/
theorem C2_duplicate_success_signal_idempotent (db : DB)
    (p : CallbackPayload) (bot : Bool) (now now2 : Nat) (g : Gen) (u : User)
    (hfilt : db.gens.filter (fun x => x.suno_song_ids.contains p.task_id) = [g])
    (htid : p.task_id ≠ "")
    (hcode : p.code = 200) (htype : p.callbackType = "complete")
    (hnc : g.status ≠ "complete")
    (hurls : extractAudioUrls p.items ≠ [])
    (hu : get_user db g.user_id = some u)
    (hbot : bot = true) (hchat : g.callback_chat_id.isSome) :
    ((handle_suno_callback db p bot now).1.ledger.length
        = db.ledger.length + 1)
    ∧ ((handle_suno_callback db p bot now).2.1.length = 1)
    ∧ (handle_suno_callback (handle_suno_callback db p bot now).1 p bot now2
        = ((handle_suno_callback db p bot now).1, [], Resp.okJson)) := by
  have hg : get_generation_by_task_id db p.task_id = some g := by
    unfold get_generation_by_task_id
    rw [hfilt]
    rfl
  rw [hsc_dispatch_success db p bot now g htid hg hnc hcode htype]
  refine ⟨?_, ?_, ?_⟩
  · rw [hsc_success_ledger db g p bot now u hurls hu]
    simp
  · rw [hsc_success_events db g p bot now u hurls hu]
    simp [hbot, hchat]
  · have hlook2 : get_generation_by_task_id (hsc_success_branch db g p bot now).1
        p.task_id
        = some (completionRow g (extractAudioUrls p.items)
            (decide (u.free_generations_left > 0)) now) := by
      unfold get_generation_by_task_id
      rw [hsc_success_gens db g p bot now u hurls hu,
        filter_map_pres _ _ db.gens
          (fun x => by rw [completionMap_suno_song_ids]),
        hfilt]
      simp [completionMap_self]
    exact hsc_complete_noop _ p bot now2 _ hlook2
      (completionRow_status g _ _ now)

/-- C2 witness: the idempotence evaluated on the concrete in-flight
database: one ledger entry, one delivery event, and a no-op second
application of the same completion payload. -/
theorem C2_duplicate_success_signal_idempotent_witness :
    ((handle_suno_callback c8DB samplePayload true 300).1.ledger.length
        = c8DB.ledger.length + 1)
    ∧ ((handle_suno_callback c8DB samplePayload true 300).2.1.length = 1)
    ∧ (handle_suno_callback (handle_suno_callback c8DB samplePayload true 300).1
          samplePayload true 400
        = ((handle_suno_callback c8DB samplePayload true 300).1, [], Resp.okJson)) :=
  C2_duplicate_success_signal_idempotent c8DB samplePayload true 300 400
    ({ baseGen with
         id := 1, user_id := 7, suno_song_ids := ["task-1"],
         status := "processing", callback_chat_id := some 77 })
    ({ baseUser with telegram_id := 7, credits := 2 })
    (by decide) (by decide) rfl rfl (by decide) (by decide) (by decide)
    rfl (by decide)

/-- C3 witness: the unconditional write evaluated on the concrete
database whose only generation is already complete. -/
theorem C3_amended_unconditional_write_witness :
    applyFields ({ baseGen with
        id := 1, user_id := 7, suno_song_ids := ["task-1"],
        status := "complete", audio_urls := ["https://cdn.example/a.mp3"],
        credits_spent := 1, completed_at := some 40 })
        "error" { error_message := some "timeout" } 50
      ∈ (update_generation_status c3DB 1 "error"
          { error_message := some "timeout" } 50).gens := by
  have h := C3_amended_unconditional_write c3DB 1 "error"
    { error_message := some "timeout" } 50
    ({ baseGen with
        id := 1, user_id := 7, suno_song_ids := ["task-1"],
        status := "complete", audio_urls := ["https://cdn.example/a.mp3"],
        credits_spent := 1, completed_at := some 40 })
    (by decide) rfl
  exact h.1

/-- C4 counterexample: no `is_free_tier` flag is stored on the job at
all — with the identical stored job record, the pool debited at
completion follows the owner's live balance at that moment: with 0 free /
5 paid the paid pool drops to 4, with 1 free / 5 paid the free pool drops
to 0 and the paid pool is untouched.  The debited pool is therefore not
determined by any flag fixed at submission. -/
theorem C4_counterexample :
    (get_user (handle_suno_callback c4aDB samplePayload true 500).1 7
        = some { c4aUser with credits := 4, last_generation_at := some 500 })
    ∧ (get_user (handle_suno_callback c4bDB samplePayload true 500).1 7
        = some { c4bUser with
                   free_generations_left := 0,
                   last_generation_at := some 500 })
    ∧ c4aDB.gens = c4bDB.gens := by
  decide

/-- C4 amended: the free-versus-paid decision is made at completion time
from the owner's live balance: on the webhook success path the job owner's
row afterwards is the live-balance debit of the row read at that moment —
the free pool is decremented (paid pool untouched) exactly when the free
pool is positive at completion, and otherwise the paid pool is
decremented (free pool untouched), regardless of anything stored on the
job. -/
theorem C4_amended_pool_decided_at_completion (db : DB)
    (p : CallbackPayload) (bot : Bool) (now : Nat) (g : Gen) (u : User)
    (hg : get_generation_by_task_id db p.task_id = some g)
    (htid : p.task_id ≠ "")
    (hcode : p.code = 200) (htype : p.callbackType = "complete")
    (hnc : g.status ≠ "complete")
    (hurls : extractAudioUrls p.items ≠ [])
    (hu : get_user db g.user_id = some u) :
    (get_user (handle_suno_callback db p bot now).1 g.user_id
        = some (debitedUser u now))
    ∧ (u.free_generations_left > 0 →
        (debitedUser u now).free_generations_left = u.free_generations_left - 1
        ∧ (debitedUser u now).credits = u.credits)
    ∧ (u.free_generations_left ≤ 0 →
        (debitedUser u now).credits = u.credits - 1
        ∧ (debitedUser u now).free_generations_left = u.free_generations_left) := by
  refine ⟨?_, ?_, ?_⟩
  · rw [hsc_dispatch_success db p bot now g htid hg hnc hcode htype]
    exact hsc_success_user db g p bot now u hurls hu
  · intro hfree
    simp [debitedUser, hfree]
  · intro hle
    have hfree : ¬ u.free_generations_left > 0 := by omega
    simp [debitedUser, hfree]

/-- C4 witness: the live-balance debit evaluated on the concrete database
where one free credit is left at completion. -/
theorem C4_amended_pool_decided_at_completion_witness :
    get_user (handle_suno_callback c4bDB samplePayload true 500).1 7
      = some (debitedUser c4bUser 500) :=
  (C4_amended_pool_decided_at_completion c4bDB samplePayload true 500
      c4Gen c4bUser (by decide) (by decide) rfl rfl (by decide) (by decide)
      (by decide)).1

/-- C5 counterexample: on the polling completion path (`do_generate` with
no callback url), the free-tier scenario (0 paid, 2 free) does debit the
free pool 2 to 1 and appends one delta −1 ledger entry, but the job's
stored credits_spent is 1, not 0 as the claim demands for both paths. -/
theorem C5_counterexample :
    ((get_generation c5Run.1 1).map Gen.credits_spent = some 1)
    ∧ (get_user c5Run.1 7
        = some { c5User with
                   free_generations_left := 1,
                   last_generation_at := some 0 })
    ∧ (c5Run.1.ledger = [⟨7, -1, "generation", "Генерация #1"⟩]) := by
  decide

/-- C5 amended: for a free-tier completion (owner with 0 paid and a
positive free pool) exactly one unit leaves the free pool and exactly one
delta −1 ledger entry is appended on both completion paths, but the
stored accounting differs: the webhook path tags the entry
"free_generation" and stores credits_spent 0, while the polling path tags
it "generation" and stores credits_spent 1. -/
theorem C5_amended_free_tier_accounting (db : DB) (p : CallbackPayload)
    (bot : Bool) (now : Nat) (g : Gen) (u : User)
    (hg : get_generation_by_task_id db p.task_id = some g)
    (htid : p.task_id ≠ "")
    (hcode : p.code = 200) (htype : p.callbackType = "complete")
    (hnc : g.status ≠ "complete")
    (hurls : extractAudioUrls p.items ≠ [])
    (hu : get_user db g.user_id = some u)
    (hfree : u.free_generations_left > 0) (hpaid : u.credits = 0) :
    ((handle_suno_callback db p bot now).1.ledger
        = db.ledger ++ [⟨g.user_id, -1, "free_generation",
            "Бесплатная генерация #" ++ toString g.id⟩])
    ∧ (get_user (handle_suno_callback db p bot now).1 g.user_id
        = some { u with
                   free_generations_left := u.free_generations_left - 1,
                   last_generation_at := some now })
    ∧ (∀ g' ∈ (handle_suno_callback db p bot now).1.gens,
        g'.id = g.id → g'.credits_spent = 0)
    ∧ (∀ (cfg : Config) (db2 : DB) (uid : Nat) (pr st : String)
        (vg : Option String) (md tid : String) (songs : List SongItem)
        (ch ms : Int) (now2 : Nat) (u2 : User),
        cfg.callback_base_url = "" → cfg.min_account_age_hours = 0 →
        cfg.min_telegram_user_id = 0 →
        get_user db2 uid = some u2 → u2.free_generations_left > 0 →
        u2.credits = 0 → (∀ x ∈ db2.gens, x.id ≠ db2.next_gen_id) →
        ((do_generate cfg db2 uid pr st vg md (Except.ok tid)
            (Except.ok songs) ch ms now2).1.ledger
          = db2.ledger ++ [⟨uid, -1, "generation",
              "Генерация #" ++ toString db2.next_gen_id⟩])
        ∧ (get_user (do_generate cfg db2 uid pr st vg md (Except.ok tid)
              (Except.ok songs) ch ms now2).1 uid
            = some { u2 with
                       free_generations_left := u2.free_generations_left - 1,
                       last_generation_at := some now2 })
        ∧ ((get_generation (do_generate cfg db2 uid pr st vg md (Except.ok tid)
              (Except.ok songs) ch ms now2).1 db2.next_gen_id).map
                Gen.credits_spent = some 1)) := by
  have hdis := hsc_dispatch_success db p bot now g htid hg hnc hcode htype
  refine ⟨?_, ?_, ?_, ?_⟩
  · rw [hdis, hsc_success_ledger db g p bot now u hurls hu]
    simp [hfree]
  · rw [hdis, hsc_success_user db g p bot now u hurls hu]
    simp [debitedUser, hfree]
  · rw [hdis, hsc_success_gens db g p bot now u hurls hu]
    intro g' hg'
    rcases List.mem_map.1 hg' with ⟨x, hx, rfl⟩
    intro hid
    by_cases hxg : x.id = g.id
    · rw [show completionMap g.id (extractAudioUrls p.items)
          (decide (u.free_generations_left > 0)) now x
          = completionRow x (extractAudioUrls p.items)
            (decide (u.free_generations_left > 0)) now from by
        simp [completionMap, hxg]]
      rw [completionRow_credits_spent]
      simp [hfree]
    · rw [show completionMap g.id (extractAudioUrls p.items)
          (decide (u.free_generations_left > 0)) now x = x from by
        simp [completionMap, hxg]] at hid
      exact absurd hid hxg
  · intro cfg db2 uid pr st vg md tid songs ch ms now2 u2 hcb hage hmid hu2
      hfree2 hpaid2 hfresh
    have hcc : check_credits cfg db2 uid now2 = some (true, u2) := by
      unfold check_credits
      rw [hu2]
      simp [hage, hmid, hfree2]
    unfold do_generate
    rw [hcc]
    simp only [not_true, if_neg, ite_false, ite_true, Bool.not_true,
      Bool.false_eq_true, not_false_eq_true]
    refine ⟨?_, ?_, ?_⟩
    · simp [hcb, hfree2, create_generation, update_generation_status,
        update_last_generation, log_balance_transaction, use_free_generation,
        update_user_credits]
    · simp [hcb, hfree2, get_user_update_generation_status,
        get_user_update_last_generation, get_user_log_balance_transaction,
        get_user_use_free_generation, get_user_create_generation, hu2]
    · simp only [hcb, hfree2, ite_true, ite_false, if_neg, ne_eq,
        not_false_eq_true, not_true_eq_false]
      rw [get_generation_update_status, get_generation_update_last_generation,
        get_generation_log_balance_transaction,
        get_generation_use_free_generation, get_generation_update_status]
      have hx : get_generation (create_generation db2 uid pr st vg md now2).1
          db2.next_gen_id
          = some { id := db2.next_gen_id, user_id := uid, suno_song_ids := [],
                   prompt := pr, style := st, voice_gender := vg, mode := md,
                   status := "pending", audio_urls := [], tg_file_ids := [],
                   credits_spent := 0, error_message := none,
                   callback_chat_id := none, callback_message_id := none,
                   created_at := now2, completed_at := none,
                   unlocked := false } := by
        unfold create_generation get_generation
        exact find?_gens_append_fresh db2.gens
          { id := db2.next_gen_id, user_id := uid, suno_song_ids := [],
            prompt := pr, style := st, voice_gender := vg, mode := md,
            status := "pending", audio_urls := [], tg_file_ids := [],
            credits_spent := 0, error_message := none,
            callback_chat_id := none, callback_message_id := none,
            created_at := now2, completed_at := none, unlocked := false }
          (fun x hxx => hfresh x hxx)
      rw [hx]
      simp [applyFields, create_generation_snd]

/-- C5 witness: the free-tier accounting evaluated concretely — the
webhook-path ledger tag on the in-flight database, and the polling-path
credits_spent of 1 on the free-tier run. -/
theorem C5_amended_free_tier_accounting_witness :
    ((handle_suno_callback c5wDB samplePayload true 500).1.ledger
        = c5wDB.ledger ++ [⟨c4Gen.user_id, -1, "free_generation",
            "Бесплатная генерация #" ++ toString c4Gen.id⟩])
    ∧ ((get_generation (do_generate c5Cfg c5DB 7 "Песня о лете" "pop" none
          "description" (Except.ok "task-9") (Except.ok [sampleItem]) 10 11 0).1
          c5DB.next_gen_id).map Gen.credits_spent = some 1) := by
  have h := C5_amended_free_tier_accounting c5wDB samplePayload true 500
      c4Gen c5User (by decide) (by decide) rfl rfl (by decide) (by decide)
      (by decide) (by decide) (by decide)
  have h4 := h.2.2.2 c5Cfg c5DB 7 "Песня о лете" "pop" none "description"
      "task-9" [sampleItem] 10 11 0 c5User rfl rfl rfl (by decide) (by decide)
      (by decide) (by decide)
  exact ⟨h.1, h4.2.2⟩

/-- C6: one Watchdog sweep leaves every balance pool and the ledger
untouched (no credit action), turns every non-terminal job older than the
timeout into an Error row with message "timeout" and a completion stamp,
and keeps every job that is terminal or younger than the timeout exactly
as it was (ids are unique, as the SERIAL primary key guarantees). -/
theorem C6_watchdog_sweep (db : DB) (now : Nat)
    (hnd : (db.gens.map Gen.id).Nodup) :
    ((watchdog_sweep db now).1.users = db.users)
    ∧ ((watchdog_sweep db now).1.ledger = db.ledger)
    ∧ (∀ g ∈ db.gens,
        (g.status = "processing" ∨ g.status = "pending") →
        g.created_at + GENERATION_TIMEOUT_MINUTES * 60 < now →
        applyFields g "error" { error_message := some "timeout" } now
          ∈ (watchdog_sweep db now).1.gens)
    ∧ (∀ g ∈ db.gens,
        ¬ ((g.status = "processing" ∨ g.status = "pending")
            ∧ g.created_at + GENERATION_TIMEOUT_MINUTES * 60 < now) →
        g ∈ (watchdog_sweep db now).1.gens) := by
  have husers : ∀ (ss : List Gen) (d : DB),
      (ss.foldl (fun d g => update_generation_status d g.id "error"
          { error_message := some "timeout" } now) d).users = d.users := by
    intro ss
    induction ss with
    | nil => intro d; rfl
    | cons s t ih => intro d; rw [List.foldl_cons, ih]; rfl
  have hledger : ∀ (ss : List Gen) (d : DB),
      (ss.foldl (fun d g => update_generation_status d g.id "error"
          { error_message := some "timeout" } now) d).ledger = d.ledger := by
    intro ss
    induction ss with
    | nil => intro d; rfl
    | cons s t ih => intro d; rw [List.foldl_cons, ih]; rfl
  have hgensfold : ∀ (ss : List Gen) (d : DB),
      (ss.foldl (fun d g => update_generation_status d g.id "error"
          { error_message := some "timeout" } now) d).gens
        = ss.foldl (fun L g => L.map (fun x =>
            if x.id = g.id then
              applyFields x "error" { error_message := some "timeout" } now
            else x)) d.gens := by
    intro ss
    induction ss with
    | nil => intro d; rfl
    | cons s t ih => intro d; rw [List.foldl_cons, List.foldl_cons, ih]; rfl
  have hgens : (watchdog_sweep db now).1.gens
      = db.gens.map (fun a =>
          (get_stuck_generations db now GENERATION_TIMEOUT_MINUTES).foldl
            (fun x g => if x.id = g.id then
                applyFields x "error" { error_message := some "timeout" } now
              else x) a) := by
    unfold watchdog_sweep
    rw [hgensfold, foldl_map_fold]
  have hidpres : ∀ x : Gen,
      (applyFields x "error" { error_message := some "timeout" } now).id
        = x.id := fun x => rfl
  have hndstuck :
      ((get_stuck_generations db now GENERATION_TIMEOUT_MINUTES).map Gen.id).Nodup :=
    List.Nodup.sublist
      (List.Sublist.map Gen.id (List.filter_sublist db.gens)) hnd
  refine ⟨?_, ?_, ?_, ?_⟩
  · unfold watchdog_sweep
    rw [husers]
  · unfold watchdog_sweep
    rw [hledger]
  · intro g hmem hst hage
    have hstuck : g ∈ get_stuck_generations db now GENERATION_TIMEOUT_MINUTES := by
      unfold get_stuck_generations
      refine List.mem_filter.2 ⟨hmem, ?_⟩
      rcases hst with h | h <;> simp [h, hage]
    rw [hgens]
    have hval := foldl_keyed_single_match Gen.id
      (fun x => applyFields x "error" { error_message := some "timeout" } now)
      hidpres _ g hstuck hndstuck
    have hin := List.mem_map_of_mem (fun a =>
      (get_stuck_generations db now GENERATION_TIMEOUT_MINUTES).foldl
        (fun x s => if x.id = s.id then
            applyFields x "error" { error_message := some "timeout" } now
          else x) a) hmem
    simpa [hval] using hin
  · intro g hmem hnot
    have hnostuck : ∀ s ∈ get_stuck_generations db now GENERATION_TIMEOUT_MINUTES,
        g.id ≠ s.id := by
      intro s hs hid
      have hsmem : s ∈ db.gens ∧ _ := List.mem_filter.1 hs
      have : g = s := List.inj_on_of_nodup_map hnd hmem hsmem.1 hid
      apply hnot
      subst this
      have hp := hsmem.2
      simp only [Bool.and_eq_true, Bool.or_eq_true, beq_iff_eq,
        decide_eq_true_eq] at hp
      exact hp
    rw [hgens]
    have hval := foldl_keyed_no_match Gen.id
      (fun x => applyFields x "error" { error_message := some "timeout" } now)
      _ g hnostuck
    have hin := List.mem_map_of_mem (fun a =>
      (get_stuck_generations db now GENERATION_TIMEOUT_MINUTES).foldl
        (fun x s => if x.id = s.id then
            applyFields x "error" { error_message := some "timeout" } now
          else x) a) hmem
    simpa [hval] using hin

/-- C6 witness: the sweep evaluated at time 2400 on the stale/fresh pair:
the ledger is untouched, the stale job is stored as
Error("timeout"), the fresh job is stored unchanged. -/
theorem C6_watchdog_sweep_witness :
    ((watchdog_sweep c6DB 2400).1.ledger = c6DB.ledger)
    ∧ (applyFields c6Stale "error" { error_message := some "timeout" } 2400
        ∈ (watchdog_sweep c6DB 2400).1.gens)
    ∧ (c6Fresh ∈ (watchdog_sweep c6DB 2400).1.gens) := by
  have h := C6_watchdog_sweep c6DB 2400 (by decide)
  exact ⟨h.2.1, h.2.2.1 c6Stale (by decide) (Or.inl rfl) (by decide),
    h.2.2.2 c6Fresh (by decide) (by decide)⟩

/-- C7: when the provider rejects the submission with a content-policy
error, the created job is stored as Error with message "content_policy",
the owner's violation counter rises by exactly one (with the auto-block
rule applied at threshold 3), the ledger gains no entry and the owner's
pools are untouched; once the counter reaches 3 the stored row is
blocked, and `start_creation` rejects every blocked user before any job
is created. -/
theorem C7_content_policy_violation (cfg : Config) (db : DB) (uid : Nat)
    (pr st : String) (vg : Option String) (md : String)
    (poll : Except SunoError (List SongItem)) (ch ms : Int) (now : Nat)
    (u : User)
    (hu : get_user db uid = some u) (hcred : u.credits > 0)
    (hfresh : ∀ x ∈ db.gens, x.id ≠ db.next_gen_id) :
    ((get_generation (do_generate cfg db uid pr st vg md
        (Except.error SunoError.contentPolicy) poll ch ms now).1
        db.next_gen_id).map Gen.status = some "error")
    ∧ ((get_generation (do_generate cfg db uid pr st vg md
        (Except.error SunoError.contentPolicy) poll ch ms now).1
        db.next_gen_id).map Gen.error_message = some (some "content_policy"))
    ∧ (get_user (do_generate cfg db uid pr st vg md
        (Except.error SunoError.contentPolicy) poll ch ms now).1 uid
        = some { u with
                   content_violations := u.content_violations + 1,
                   is_blocked := if u.content_violations + 1 ≥ 3 then true
                     else u.is_blocked })
    ∧ ((do_generate cfg db uid pr st vg md
        (Except.error SunoError.contentPolicy) poll ch ms now).1.ledger
        = db.ledger)
    ∧ (u.content_violations + 1 ≥ 3 →
        get_user (do_generate cfg db uid pr st vg md
          (Except.error SunoError.contentPolicy) poll ch ms now).1 uid
          = some { u with
                     content_violations := u.content_violations + 1,
                     is_blocked := true })
    ∧ (∀ (cfg2 : Config) (db2 : DB) (uid2 : Nat) (u2 : User) (ds n2 : Nat),
        get_user db2 uid2 = some u2 → u2.is_blocked = true →
        start_creation cfg2 db2 uid2 ds n2 = .rejected .blocked) := by
  have hcc : check_credits cfg db uid now = some (true, u) := by
    unfold check_credits
    rw [hu]
    simp [hcred]
  have hx : get_generation (create_generation db uid pr st vg md now).1
      db.next_gen_id
      = some { id := db.next_gen_id, user_id := uid, suno_song_ids := [],
               prompt := pr, style := st, voice_gender := vg, mode := md,
               status := "pending", audio_urls := [], tg_file_ids := [],
               credits_spent := 0, error_message := none,
               callback_chat_id := none, callback_message_id := none,
               created_at := now, completed_at := none,
               unlocked := false } := by
    unfold create_generation get_generation
    exact find?_gens_append_fresh db.gens
      { id := db.next_gen_id, user_id := uid, suno_song_ids := [],
        prompt := pr, style := st, voice_gender := vg, mode := md,
        status := "pending", audio_urls := [], tg_file_ids := [],
        credits_spent := 0, error_message := none,
        callback_chat_id := none, callback_message_id := none,
        created_at := now, completed_at := none, unlocked := false }
      (fun x hxx => hfresh x hxx)
  have hgen : (get_generation (do_generate cfg db uid pr st vg md
        (Except.error SunoError.contentPolicy) poll ch ms now).1
        db.next_gen_id)
      = some (applyFields
          { id := db.next_gen_id, user_id := uid, suno_song_ids := [],
            prompt := pr, style := st, voice_gender := vg, mode := md,
            status := "pending", audio_urls := [], tg_file_ids := [],
            credits_spent := 0, error_message := none,
            callback_chat_id := none, callback_message_id := none,
            created_at := now, completed_at := none, unlocked := false }
          "error" { error_message := some "content_policy" } now) := by
    unfold do_generate
    rw [hcc]
    simp only [not_true, ite_false, ite_true, Bool.not_true,
      Bool.false_eq_true, not_false_eq_true, if_neg]
    unfold do_generate_error
    rw [get_generation_update_status, get_generation_increment_content_violations,
      hx]
    simp [create_generation_snd]
  have huser : get_user (do_generate cfg db uid pr st vg md
        (Except.error SunoError.contentPolicy) poll ch ms now).1 uid
      = some { u with
                 content_violations := u.content_violations + 1,
                 is_blocked := if u.content_violations + 1 ≥ 3 then true
                   else u.is_blocked } := by
    unfold do_generate
    rw [hcc]
    simp only [not_true, ite_false, ite_true, Bool.not_true,
      Bool.false_eq_true, not_false_eq_true, if_neg]
    unfold do_generate_error
    rw [get_user_update_generation_status, get_user_increment_content_violations,
      get_user_create_generation, hu]
    rfl
  refine ⟨?_, ?_, huser, ?_, ?_, ?_⟩
  · rw [hgen]
    simp [applyFields]
  · rw [hgen]
    simp [applyFields]
  · unfold do_generate
    rw [hcc]
    simp [do_generate_error, create_generation, increment_content_violations,
      update_generation_status]
  · intro hthr
    rw [huser]
    simp [hthr]
  · intro cfg2 db2 uid2 u2 ds n2 hu2 hb
    unfold start_creation check_limits
    rw [hu2]
    simp [hb]

/-- C7 witness: the content-policy rejection evaluated for the user one
violation short of the threshold: the stored error row, the incremented
and now-blocked user row, the untouched ledger, and the blocked-gate
refusal for an already blocked user. -/
theorem C7_content_policy_violation_witness :
    ((get_generation (do_generate c5Cfg c7DB 7 "p" "s" none "description"
        (Except.error SunoError.contentPolicy) (Except.ok []) 10 11 0).1
        c7DB.next_gen_id).map Gen.status = some "error")
    ∧ (get_user (do_generate c5Cfg c7DB 7 "p" "s" none "description"
        (Except.error SunoError.contentPolicy) (Except.ok []) 10 11 0).1 7
        = some { c7User with content_violations := 3, is_blocked := true })
    ∧ ((do_generate c5Cfg c7DB 7 "p" "s" none "description"
        (Except.error SunoError.contentPolicy) (Except.ok []) 10 11 0).1.ledger
        = c7DB.ledger)
    ∧ (start_creation c5Cfg c7BlockedDB 9 0 0 = .rejected .blocked) := by
  have h := C7_content_policy_violation c5Cfg c7DB 7 "p" "s" none "description"
    (Except.ok []) 10 11 0 c7User (by decide) (by decide) (by decide)
  refine ⟨h.1, ?_, h.2.2.2.1, h.2.2.2.2.2 c5Cfg c7BlockedDB 9
    ({ baseUser with telegram_id := 9, is_blocked := true }) 0 0
    (by decide) rfl⟩
  have h5 := h.2.2.2.2.1 (by decide)
  exact h5

/-- C10: completing a T-Bank payment acts only on a pending record:
the CONFIRMED notification returns the pending row, marks it completed
with the provider payment id, and adds the purchased credits to the
buyer's paid pool exactly once — a second CONFIRMED notification for the
same order id finds no pending row, returns none and leaves the state
unchanged, and any non-CONFIRMED status changes nothing at all. -/
theorem C10_payment_credited_at_most_once (db : DB) (oid pid pid2 : String)
    (pay : Payment) (u : User)
    (hfind : db.payments.find? (fun p => p.order_id == some oid
        && p.payment_type == "tbank" && p.status == "pending") = some pay)
    (huniq : ∀ q ∈ db.payments, q.order_id = some oid →
        q.payment_type = "tbank" → q.id = pay.id)
    (hu : get_user db pay.user_id = some u) :
    ((handle_tbank_notification db "CONFIRMED" oid pid).2 = some pay)
    ∧ (get_user (handle_tbank_notification db "CONFIRMED" oid pid).1 pay.user_id
        = some { u with credits := u.credits + pay.credits_purchased })
    ∧ ({ pay with status := "completed", tbank_payment_id := some pid }
        ∈ (handle_tbank_notification db "CONFIRMED" oid pid).1.payments)
    ∧ (handle_tbank_notification
        (handle_tbank_notification db "CONFIRMED" oid pid).1 "CONFIRMED" oid pid2
        = ((handle_tbank_notification db "CONFIRMED" oid pid).1, none))
    ∧ (∀ s : String, s ≠ "CONFIRMED" →
        handle_tbank_notification db s oid pid = (db, none)) := by
  have hmem : pay ∈ db.payments := List.mem_of_find?_eq_some hfind
  have hrun : handle_tbank_notification db "CONFIRMED" oid pid
      = (update_user_credits
          { db with payments := db.payments.map (fun q =>
              if q.id = pay.id then
                { q with status := "completed", tbank_payment_id := some pid }
              else q) }
          pay.user_id pay.credits_purchased, some pay) := by
    unfold handle_tbank_notification complete_tbank_payment
    rw [if_pos rfl, hfind]
  have hnone : (db.payments.map (fun q =>
      if q.id = pay.id then
        { q with status := "completed", tbank_payment_id := some pid }
      else q)).find? (fun p => p.order_id == some oid
        && p.payment_type == "tbank" && p.status == "pending") = none := by
    refine List.find?_eq_none.2 ?_
    intro q' hq'
    rcases List.mem_map.1 hq' with ⟨q, hq, rfl⟩
    by_cases hid : q.id = pay.id
    · simp [hid]
    · simp only [hid, ite_false, if_neg, not_false_eq_true]
      intro hcontra
      simp only [Bool.and_eq_true, beq_iff_eq] at hcontra
      exact hid (huniq q hq hcontra.1.1 hcontra.1.2)
  refine ⟨?_, ?_, ?_, ?_, ?_⟩
  · rw [hrun]
  · rw [hrun]
    simp only []
    rw [get_user_update_user_credits, get_user_set_payments, hu]
    rfl
  · rw [hrun]
    simp only [payments_update_user_credits]
    have hin := List.mem_map_of_mem (fun q =>
      if q.id = pay.id then
        { q with status := "completed", tbank_payment_id := some pid }
      else q) hmem
    simpa using hin
  · rw [hrun]
    unfold handle_tbank_notification complete_tbank_payment
    rw [if_pos rfl]
    simp only [payments_update_user_credits]
    rw [hnone]
  · intro s hs
    unfold handle_tbank_notification
    rw [if_neg hs]

/-- C10 witness: the payment flow evaluated on the concrete buyer and the
pending ord-1 payment: credited once (2 to 12), and the duplicate
CONFIRMED notification is a no-op returning none. -/
theorem C10_payment_credited_at_most_once_witness :
    ((handle_tbank_notification c10DB "CONFIRMED" "ord-1" "pay-9").2
        = some c10Pay)
    ∧ (get_user (handle_tbank_notification c10DB "CONFIRMED" "ord-1" "pay-9").1 7
        = some { baseUser with telegram_id := 7, credits := 12 })
    ∧ (handle_tbank_notification
        (handle_tbank_notification c10DB "CONFIRMED" "ord-1" "pay-9").1
        "CONFIRMED" "ord-1" "pay-9b"
        = ((handle_tbank_notification c10DB "CONFIRMED" "ord-1" "pay-9").1,
           none)) := by
  have h := C10_payment_credited_at_most_once c10DB "ord-1" "pay-9" "pay-9b"
    c10Pay ({ baseUser with telegram_id := 7, credits := 2 })
    (by decide) (by decide) (by decide)
  exact ⟨h.1, h.2.1, h.2.2.2.1⟩

end TelegramSunoBot
